import Mathlib

/-!
Verification development for the rero-invenio-thumbnails repository.

The Python sources are shallowly embedded into Lean: pure functions become
Lean functions, byte strings become lists of naturals, Python exceptions are
modelled with an `Except` monad, and calls into external libraries
(`requests`, `PIL`, `xml`, `json`, `isbnlib`, `invenio_cache`) are modelled as
fields of an explicit oracle so that theorems can quantify over every possible
behaviour of those collaborators.
-/

set_option maxRecDepth 10000
set_option linter.unusedVariables false

namespace ReroThumbnails

/-! ## Byte strings

Python `bytes` values are modelled as lists of naturals.  `str.encode` is
modelled as the list of Unicode code points of the string, which agrees with
UTF-8 on the ASCII inputs appearing in this development, and `bytes.decode`
as the inverse. -/

/-- Model of Python `str.encode()`: the code points of the string. -/
def strBytes (s : String) : List Nat := s.data.map Char.toNat

/-- Model of Python `bytes.decode()`: rebuild a string from code points. -/
def bytesStr (b : List Nat) : String := ⟨b.map Char.ofNat⟩

theorem bytesStr_strBytes (s : String) : bytesStr (strBytes s) = s := by
  cases s with
  | mk data =>
    simp only [bytesStr, strBytes, List.map_map]
    congr 1
    refine List.map_congr_left (fun c _ => ?_) |>.trans (List.map_id data)
    exact Char.ofNat_toNat c

/-! ## Python runtime values

`get_thumbnail_url` in `api.py` manipulates values that may be `None`, a
`str`, a `bytes` object, or a 2-tuple `(url_or_None, provider_name)` as
returned by several providers.  `PyVal` is the union of these shapes;
`pyTruthy` models Python truthiness on them (a non-empty tuple is always
truthy, `None` is falsy, a string or bytes object is truthy iff non-empty). -/

inductive PyVal : Type where
  | pyNone : PyVal
  | pyStr (s : String) : PyVal
  | pyBytes (b : List Nat) : PyVal
  | pyTuple (url : Option String) (provider : String) : PyVal
  deriving DecidableEq, Repr

open PyVal

/-- Model of Python truthiness for the values above. -/
def pyTruthy : PyVal → Bool
  | pyNone => false
  | pyStr s => s ≠ ""
  | pyBytes b => b ≠ []
  | pyTuple _ _ => true

/-! ## modules/utils.py : clean_isbn (lines 51-65)

Python `s.replace(c, "")` for a one-character pattern removes every
occurrence of that character, i.e. filters it out. -/

/-- Model of Python `s.replace(c, "")` for a single-character pattern. -/
def pyRemoveChar (s : String) (c : Char) : String := ⟨s.data.filter (· ≠ c)⟩

/-- Embedding of `clean_isbn` (modules/utils.py lines 51-65):
`return isbn.replace("-", "").replace(" ", "")`. -/
def clean_isbn (isbn : String) : String := pyRemoveChar (pyRemoveChar isbn '-') ' '

/-! ## modules/utils.py : validate_image_content (lines 165-206)

`PIL.Image.open` is abstracted as a `decode` oracle returning the decoded
dimensions, or `none` when decoding raises.  The `content` argument may be
`None` in Python, hence the `Option`.  All logging is inside
`suppress(Exception)` blocks and does not affect the result. -/

/-- Embedding of `validate_image_content` (modules/utils.py lines 165-206).
Total by construction, mirroring the `suppress(Exception)` blocks that make
the Python function never raise. -/
def validate_image_content (decode : List Nat → Option (Nat × Nat))
    (content : Option (List Nat)) (provider_name isbn : String)
    (min_dimension : Nat) : Bool :=
  match content with
  | none => false
  | some b =>
    if b = [] then false
    else
      match decode b with
      | none => false
      | some (width, height) =>
        if width < min_dimension ∨ height < min_dimension then false else true

/-! ## api.py : _resize_image (lines 348-378)

A PIL image is modelled by its pixel dimensions, which is all the resize
logic inspects.  Python `int()` applied to the non-negative float quotient
truncates toward zero, i.e. takes the floor; this is modelled by natural
division.  `not width` is true in Python when `width` is `None` or `0`. -/

structure PILImage : Type where
  width : Nat
  height : Nat
  deriving DecidableEq, Repr

/-- Model of Python truthiness of an `int | None` argument. -/
def truthyDim : Option Nat → Bool
  | none => false
  | some n => n ≠ 0

/-- Embedding of `_resize_image` (api.py lines 348-378). -/
def resize_image (img : PILImage) (width height : Option Nat) : PILImage :=
  if ¬ truthyDim width ∧ ¬ truthyDim height then img
  else if img.width = 0 ∨ img.height = 0 then img
  else if truthyDim width ∧ truthyDim height then ⟨width.getD 0, height.getD 0⟩
  else if truthyDim width then
    ⟨width.getD 0, width.getD 0 * img.height / img.width⟩
  else
    ⟨height.getD 0 * img.width / img.height, height.getD 0⟩

/-! ## Model of hashlib.md5 (external library used by api.py line 57)

A concrete executable implementation of the MD5 digest (RFC 1321), used to
model `hashlib.md5(cache_key_base.encode()).hexdigest()`.  Arithmetic is on
naturals reduced modulo 2^32. -/

/-- Reduce modulo 2^32. -/
def w32 (n : Nat) : Nat := n % 4294967296

/-- Left rotation of a 32-bit word. -/
def rotl32 (x s : Nat) : Nat := w32 (x <<< s) + (x >>> (32 - s))

/-- Bitwise complement of a 32-bit word. -/
def not32 (x : Nat) : Nat := Nat.xor x 4294967295

/-- MD5 round constants: floor(abs(sin(i+1)) * 2^32) for i in 0..63. -/
def md5K : List Nat :=
  [3614090360, 3905402710, 606105819, 3250441966, 4118548399, 1200080426,
   2821735955, 4249261313, 1770035416, 2336552879, 4294925233, 2304563134,
   1804603682, 4254626195, 2792965006, 1236535329, 4129170786, 3225465664,
   643717713, 3921069994, 3593408605, 38016083, 3634488961, 3889429448,
   568446438, 3275163606, 4107603335, 1163531501, 2850285829, 4243563512,
   1735328473, 2368359562, 4294588738, 2272392833, 1839030562, 4259657740,
   2763975236, 1272893353, 4139469664, 3200236656, 681279174, 3936430074,
   3572445317, 76029189, 3654602809, 3873151461, 530742520, 3299628645,
   4096336452, 1126891415, 2878612391, 4237533241, 1700485571, 2399980690,
   4293915773, 2240044497, 1873313359, 4264355552, 2734768916, 1309151649,
   4149444226, 3174756917, 718787259, 3951481745]

/-- MD5 per-round left-rotation amounts. -/
def md5S : List Nat :=
  [7, 12, 17, 22, 7, 12, 17, 22, 7, 12, 17, 22, 7, 12, 17, 22,
   5, 9, 14, 20, 5, 9, 14, 20, 5, 9, 14, 20, 5, 9, 14, 20,
   4, 11, 16, 23, 4, 11, 16, 23, 4, 11, 16, 23, 4, 11, 16, 23,
   6, 10, 15, 21, 6, 10, 15, 21, 6, 10, 15, 21, 6, 10, 15, 21]

/-- Little-endian byte serialisation of `n` on `k` bytes. -/
def leBytes (k n : Nat) : List Nat := (List.range k).map (fun i => n / 256 ^ i % 256)

/-- Little-endian word deserialisation. -/
def fromLE (bs : List Nat) : Nat := bs.foldr (fun b a => a * 256 + b) 0

/-- MD5 padding: append 0x80, zero-pad to 56 mod 64, append the 64-bit
little-endian bit length. -/
def md5Pad (msg : List Nat) : List Nat :=
  let padLen := (56 + 64 - (msg.length + 1) % 64) % 64
  msg ++ [128] ++ List.replicate padLen 0 ++ leBytes 8 (msg.length * 8 % 18446744073709551616)

/-- Split a list into successive 64-byte blocks (fuel-based recursion). -/
def blocks64Aux : Nat → List Nat → List (List Nat)
  | 0, _ => []
  | _ + 1, [] => []
  | fuel + 1, l => l.take 64 :: blocks64Aux fuel (l.drop 64)

def blocks64 (l : List Nat) : List (List Nat) := blocks64Aux l.length l

/-- Nonlinear function and message index for MD5 round `i`. -/
def md5FG (i b c d : Nat) : Nat × Nat :=
  if i < 16 then ((b &&& c) ||| (not32 b &&& d), i)
  else if i < 32 then ((d &&& b) ||| (not32 d &&& c), (5 * i + 1) % 16)
  else if i < 48 then (Nat.xor (Nat.xor b c) d, (3 * i + 5) % 16)
  else (Nat.xor c (b ||| not32 d), 7 * i % 16)

/-- One MD5 round step on the state (a, b, c, d). -/
def md5Step (m : Nat → Nat) (st : Nat × Nat × Nat × Nat) (i : Nat) :
    Nat × Nat × Nat × Nat :=
  let (a, b, c, d) := st
  let (f, g) := md5FG i b c d
  let f2 := w32 (f + a + md5K.getD i 0 + m g)
  (d, w32 (b + rotl32 f2 (md5S.getD i 0)), b, c)

/-- Process one 64-byte block, updating the running digest state. -/
def md5Block (st : Nat × Nat × Nat × Nat) (block : List Nat) :
    Nat × Nat × Nat × Nat :=
  let m := fun g => fromLE ((block.drop (4 * g)).take 4)
  let (a0, b0, c0, d0) := st
  let (a, b, c, d) := (List.range 64).foldl (md5Step m) (a0, b0, c0, d0)
  (w32 (a0 + a), w32 (b0 + b), w32 (c0 + c), w32 (d0 + d))

/-- MD5 digest of a byte string, as 16 bytes. -/
def md5Bytes (msg : List Nat) : List Nat :=
  let (a, b, c, d) :=
    (blocks64 (md5Pad msg)).foldl md5Block
      (1732584193, 4023233417, 2562383102, 271733878)
  leBytes 4 a ++ leBytes 4 b ++ leBytes 4 c ++ leBytes 4 d

/-- Model of `hashlib.md5(s.encode()).hexdigest()`. -/
def md5hex (s : String) : String :=
  ⟨(md5Bytes (strBytes s)).foldr
    (fun b acc => Nat.digitChar (b / 16) :: Nat.digitChar (b % 16) :: acc) []⟩

/-! ## api.py : _generate_cache_key (lines 47-58)

The Python builds the f-string
`isbn + "_" + str(width or 0) + "x" + str(height or 0)` when `width or height`
is truthy and otherwise uses `isbn` alone, then MD5-hashes it.  `width or 0`
maps both `None` and `0` to `0`. -/

/-- Model of the Python expression `width or 0` on an `int | None` value. -/
def orZero : Option Nat → Nat
  | none => 0
  | some n => n

/-- Embedding of the `cache_key_base` expression of `_generate_cache_key`
(api.py line 56). -/
def cacheKeyBase (isbn : String) (width height : Option Nat) : String :=
  if truthyDim width || truthyDim height then
    isbn ++ "_" ++ Nat.repr (orZero width) ++ "x" ++ Nat.repr (orZero height)
  else isbn

/-- Embedding of `_generate_cache_key` (api.py lines 47-58). -/
def generate_cache_key (isbn prefixTag : String) (width height : Option Nat) :
    String :=
  "rero_thumbnail_" ++ prefixTag ++ "_" ++ md5hex (cacheKeyBase isbn width height)

/-- URL-lookup cache key of `get_thumbnail_url` (api.py line 192): the plain
f-string `rero_thumbnails_` + isbn, with no hashing. -/
def urlCacheKey (isbn : String) : String := "rero_thumbnails_" ++ isbn

/-! ## api.py : RedisCache (lines 90-99)

The Redis backend delegates to `invenio_cache.current_cache`, an external
key-value store with native TTL support that returns stored values as-is.
The store is modelled as an association list of key, value and the timeout
that was passed to `set`; `get` before expiry returns the stored value
unchanged and `get` on a missing key returns `None`. -/

def RedisState : Type := List (String × PyVal × Int)

/-- Embedding of `RedisCache.set` (api.py lines 97-99): store the value
as-is under the key, replacing any previous entry. -/
def RedisCache.set (st : RedisState) (key : String) (value : PyVal)
    (timeout : Int) : RedisState :=
  (key, value, timeout) :: st.filter (fun e => e.1 ≠ key)

/-- Embedding of `RedisCache.get` (api.py lines 93-95) before expiry:
return the stored value as-is, or `None` when the key is absent. -/
def RedisCache.get (st : RedisState) (key : String) : Option PyVal :=
  (st.find? (fun e => e.1 = key)).map (fun e => e.2.1)

/-- Timeout recorded for a key in the Redis model (for stating that entries
are written with the configured TTL). -/
def RedisCache.timeoutOf (st : RedisState) (key : String) : Option Int :=
  (st.find? (fun e => e.1 = key)).map (fun e => e.2.2)

/-! ## api.py : FilesystemCache (lines 102-156)

One file per key; the cache directory is fixed, so the file system is
modelled as an association list from keys to raw file contents (byte lists).
`set` computes `int(time.time() + timeout)` when `timeout > 0` and `0`
otherwise, writes that expiry on 8 big-endian bytes followed by the value
bytes (`str(value).encode()` for non-bytes values, nothing for `None`).
`int.to_bytes(8, "big")` raises `OverflowError` for values at or above
2^64, which the `except` clause turns into a logged no-op.  `get` returns
`None` for a missing or short file, deletes the file and returns `None`
when `time.time() > expiration > 0`, and otherwise returns the bytes after
the 8-byte header. -/

def FsState : Type := List (String × List Nat)

/-- Big-endian serialisation on 8 bytes, modelling `int.to_bytes(8, "big")`. -/
def toBE8 (n : Nat) : List Nat := (List.range 8).map (fun i => n / 256 ^ (7 - i) % 256)

/-- Big-endian deserialisation, modelling `int.from_bytes(bs, "big")`. -/
def fromBE (bs : List Nat) : Nat := bs.foldl (fun a b => a * 256 + b) 0

/-- Model of Python `str(value)` for the values a cache can receive; the
tuple branch spells `repr` of a pair the way CPython does. -/
def pyStrOf : PyVal → String
  | PyVal.pyStr s => s
  | PyVal.pyNone => "None"
  | PyVal.pyBytes b => bytesStr b
  | PyVal.pyTuple u n =>
    let q := String.mk [Char.ofNat 39]
    "(" ++ (match u with | none => "None" | some s => q ++ s ++ q) ++ ", "
      ++ q ++ n ++ q ++ ")"

/-- Value bytes written by `FilesystemCache.set` (api.py lines 153-154):
`value if isinstance(value, bytes) else str(value).encode()`, and nothing
when the value is `None`. -/
def fsValueBytes : PyVal → List Nat
  | PyVal.pyBytes b => b
  | PyVal.pyNone => []
  | v => strBytes (pyStrOf v)

/-- Embedding of `FilesystemCache.set` (api.py lines 141-156).  `now` is the
current `time.time()`.  An expiry that does not fit in 8 bytes makes the
header write raise `OverflowError`, caught and logged: no entry is written. -/
def FilesystemCache.set (st : FsState) (key : String) (value : PyVal)
    (timeout : Int) (now : Nat) : FsState :=
  let expiration : Nat := if 0 < timeout then now + timeout.toNat else 0
  if expiration < 18446744073709551616 then
    (key, toBE8 expiration ++ fsValueBytes value) :: st.filter (fun e => e.1 ≠ key)
  else st

/-- Embedding of `FilesystemCache.get` (api.py lines 114-139).  Returns the
value read (as Python bytes, `None` on miss) together with the file system
after the lazy-expiry deletion. -/
def FilesystemCache.get (st : FsState) (key : String) (now : Nat) :
    Option (List Nat) × FsState :=
  match st.find? (fun e => e.1 = key) with
  | none => (none, st)
  | some (_, data) =>
    if data.length < 8 then (none, st)
    else
      let expiration := fromBE (data.take 8)
      if 0 < expiration ∧ expiration < now then
        (none, st.filter (fun e => e.1 ≠ key))
      else (some (data.drop 8), st)

/-! ## modules/utils.py : _get_retry_config and fetch_with_retries (97-162)

The retry configuration is a record of the five values read from the Flask
configuration (lines 97-121).  The network is an oracle giving the outcome
of each successive `requests.get` attempt: a `Response`, a
`requests.RequestException` (the only type tenacity is told to retry), or
some other exception.  `tenacity.Retrying` with
`stop=stop_after_attempt(attempts)`, `retry=retry_if_exception_type(
RequestException)` and `reraise=True` performs attempts until one returns,
raises a non-retried exception type, or the attempt number reaches
`attempts`, in which case the last exception is re-raised. -/

structure Response : Type where
  status : Nat
  contentType : String
  content : List Nat
  text : String
  deriving DecidableEq, Repr

/-- Python exception values relevant to the providers: `ValueError`,
`requests.RequestException`, and any other `Exception`. -/
inductive PyErr : Type where
  | valueError (msg : String) : PyErr
  | requestError (msg : String) : PyErr
  | otherError (msg : String) : PyErr
  deriving DecidableEq, Repr

/-- Outcome of one `requests.get` attempt. -/
inductive Attempt : Type where
  | ok (resp : Response) : Attempt
  | requestExc (msg : String) : Attempt
  | otherExc (msg : String) : Attempt
  deriving DecidableEq, Repr

/-- Retry settings returned by `_get_retry_config`
(modules/utils.py lines 97-121); backoff values are kept as rationals. -/
structure RetryConfig : Type where
  attempts : Nat
  backoff_multiplier : ℚ
  backoff_min : ℚ
  backoff_max : ℚ
  enabled : Bool
  deriving Repr

/-- Default retry settings of `_get_retry_config` outside any Flask
application context (modules/utils.py lines 99-103). -/
def defaultRetryConfig : RetryConfig :=
  { attempts := 5, backoff_multiplier := 1 / 2, backoff_min := 1,
    backoff_max := 10, enabled := true }

/-- Tenacity retry loop: `i` is the 0-based attempt index, `fuel` the number
of further attempts `stop_after_attempt` still allows.  Returns the final
outcome and the total number of attempts performed. -/
def retryLoop (net : Nat → Attempt) : Nat → Nat → Except PyErr Response × Nat
  | i, fuel =>
    match net i with
    | Attempt.ok r => (Except.ok r, i + 1)
    | Attempt.otherExc m => (Except.error (PyErr.otherError m), i + 1)
    | Attempt.requestExc m =>
      match fuel with
      | 0 => (Except.error (PyErr.requestError m), i + 1)
      | fuel + 1 => retryLoop net (i + 1) fuel

/-- Embedding of `fetch_with_retries` (modules/utils.py lines 124-162).
`disableRetries` models the module-level `_DISABLE_RETRIES` flag.  Returns
the result (a `Response` carrying any status code, or the propagated
exception) together with the number of `requests.get` attempts performed. -/
def fetch_with_retries (disableRetries : Bool) (cfg : RetryConfig)
    (net : Nat → Attempt) : Except PyErr Response × Nat :=
  if disableRetries || !cfg.enabled then
    match net 0 with
    | Attempt.ok r => (Except.ok r, 1)
    | Attempt.requestExc m => (Except.error (PyErr.requestError m), 1)
    | Attempt.otherExc m => (Except.error (PyErr.otherError m), 1)
  else retryLoop net 0 (cfg.attempts - 1)

/-! ## Provider oracle

Each provider performs calls into external libraries; those calls are
collected into one oracle record.  A call that can raise a Python exception
returns in the `Except PyErr` monad, so that provider theorems quantify over
every possible behaviour, including every possible exception. -/

/-- Summary of the Google Books API JSON document that
`google_api/api.py` inspects: `data.get("totalItems")`, truthiness of
`data.get("items")`, and the nested `volumeInfo.imageLinks.thumbnail`. -/
structure GAData : Type where
  totalItems : Option Int
  itemsNonempty : Bool
  thumbnail : Option String
  deriving DecidableEq, Repr

/-- One 856 datafield of a DNB MARC21 record: the text of subfield `u` and
of subfield `x` (absent when the subfield is missing or has no text). -/
structure Dnb856 : Type where
  u : Option String
  x : Option String
  deriving DecidableEq, Repr

/-- One record of a DNB SRU response: its 856 datafields and, for each 020
datafield, whether subfield `a` is present. -/
structure DnbRecord : Type where
  f856 : List Dnb856
  f020 : List Bool
  deriving DecidableEq, Repr

/-- Oracle for the external collaborators of the providers.  `fetch` is the
outcome of `fetch_with_retries` for a URL; `decode` the dimensions
`PIL.Image.open` reports (none when decoding raises); `toIsbn10` models
`isbnlib.to_isbn10`; `xmlFindArk` models the `ElementTree` ARK extraction of
`bnf/api.py`; `gbJson` models `json.loads` plus the `thumbnail_url` lookup of
`google_books/api.py` (an error of kind `valueError` is what `json.loads`
raises on bad input); `gaJson` models `response.json()` plus the `.get`
chain of `google_api/api.py`; `dnbParse` models the `ElementTree` parse plus
`findall` calls of `dnb/api.py`; `filePath` models the configuration lookup
and directory search of `FilesProvider.get_thumbnail_path`. -/
structure Oracle : Type where
  fetch : String → Except PyErr Response
  decode : List Nat → Option (Nat × Nat)
  toIsbn10 : String → Except PyErr String
  xmlFindArk : List Nat → Except PyErr (Option String)
  gbJson : String → Except PyErr (Option String)
  gaJson : Response → Except PyErr GAData
  dnbParse : List Nat → Except PyErr (List DnbRecord)
  filePath : String → Except PyErr (Option String)

/-! ## modules/utils.py : handle_provider_errors (lines 68-94)

The decorator catches `ValueError`, `requests.RequestException` and any
other `Exception`, logs a message of the corresponding shape, and returns
the tuple `(None, provider_name.lower())`.  The wrapped call is modelled as
the pair of the returned value and the list of log messages emitted by the
error handlers. -/

/-- Model of Python `str.lower()`: lower-case every character. -/
def pyLower (s : String) : String := ⟨s.data.map Char.toLower⟩

/-- Log message emitted by `handle_provider_errors` for each exception kind
(modules/utils.py lines 79-88). -/
def providerErrLog (provider_name isbn : String) : PyErr → String
  | PyErr.valueError m =>
    "Invalid ISBN format for " ++ provider_name ++ " provider: " ++ isbn ++ ": " ++ m
  | PyErr.requestError m =>
    "Request error retrieving thumbnail for ISBN " ++ isbn ++ " from "
      ++ provider_name ++ ": " ++ m
  | PyErr.otherError m =>
    "Unexpected error retrieving thumbnail for ISBN " ++ isbn ++ " from "
      ++ provider_name ++ ": " ++ m

/-- Embedding of the `handle_provider_errors` decorator
(modules/utils.py lines 68-94). -/
def handle_provider_errors (provider_name : String)
    (f : String → Except PyErr PyVal) (isbn : String) : PyVal × List String :=
  match f isbn with
  | Except.ok r => (r, [])
  | Except.error e =>
    (PyVal.pyTuple none (pyLower provider_name), [providerErrLog provider_name isbn e])

/-! ## String helpers used by the providers -/

/-- Model of Python `str.strip()`. -/
def pyStrip (s : String) : String :=
  ⟨((s.data.dropWhile Char.isWhitespace).reverse.dropWhile Char.isWhitespace).reverse⟩

/-- Model of Python `str.find(c)` for a one-character needle: first index,
as an optional natural (Python returns -1 on absence). -/
def findIdxOf (l : List Char) (c : Char) : Option Nat := l.findIdx? (· = c)

/-- Model of Python `str.rfind(c)` for a one-character needle. -/
def rfindIdxOf (l : List Char) (c : Char) : Option Nat :=
  (l.reverse.findIdx? (· = c)).map (fun i => l.length - 1 - i)

/-- Model of the Python `in` substring test. -/
def containsSub (s pat : String) : Bool :=
  (List.range (s.length + 1)).any
    (fun i => (s.data.drop i).take pat.data.length == pat.data)

/-! ## modules/open_library/api.py : OpenLibraryProvider (lines 29-98) -/

/-- Cover URL built by `OpenLibraryProvider.get_thumbnail_url` (line 84). -/
def open_library_url (size isbn : String) : String :=
  "https://covers.openlibrary.org/b/isbn/" ++ isbn ++ "-" ++ size ++ ".jpg?default=false"

/-- Embedding of the body of `OpenLibraryProvider.get_thumbnail_url`
(modules/open_library/api.py lines 56-98), before the decorator. -/
def open_library_inner (o : Oracle) (size : String) (isbn : String) :
    Except PyErr PyVal := do
  let c := clean_isbn isbn
  let url := open_library_url size c
  let response ← o.fetch url
  if response.status = 200 then
    if ¬ response.contentType.startsWith "image/" then pure PyVal.pyNone
    else if validate_image_content o.decode (some response.content) "Open Library" c 10
    then pure (PyVal.pyStr url)
    else pure PyVal.pyNone
  else pure PyVal.pyNone

/-- Decorated `OpenLibraryProvider.get_thumbnail_url`. -/
def open_library_resolve (o : Oracle) (size isbn : String) : PyVal × List String :=
  handle_provider_errors "Open Library" (open_library_inner o size) isbn

/-! ## modules/amazon/api.py : AmazonProvider (lines 29-111) -/

/-- Embedding of the body of `AmazonProvider.get_thumbnail_url`
(modules/amazon/api.py lines 76-111), before the decorator.  The request
headers do not influence the oracle model. -/
def amazon_inner (o : Oracle) (country size : String) (isbn : String) :
    Except PyErr PyVal := do
  let c := clean_isbn isbn
  let isbn10 ← o.toIsbn10 c
  let url := "https://images-na.ssl-images-amazon.com/images/P/" ++ isbn10 ++ "."
    ++ country ++ "._" ++ size ++ "_.jpg"
  let response ← o.fetch url
  if response.status = 200 then
    if validate_image_content o.decode (some response.content) "Amazon" isbn10 10
    then pure (PyVal.pyStr url)
    else pure PyVal.pyNone
  else pure PyVal.pyNone

/-- Decorated `AmazonProvider.get_thumbnail_url`. -/
def amazon_resolve (o : Oracle) (country size isbn : String) : PyVal × List String :=
  handle_provider_errors "Amazon" (amazon_inner o country size) isbn

/-! ## modules/bnf/api.py : BnfProvider (lines 31-152) -/

/-- SRU query URL of `BnfProvider.isbn_to_ark` (line 81). -/
def bnf_sru_url (isbn : String) : String :=
  "https://catalogue.bnf.fr/api/SRU?version=1.2&operation=searchRetrieve&query=bib.isbn%20all%20%22"
    ++ isbn ++ "%22&recordSchema=unimarcxchange&maximumRecords=1"

/-- Embedding of `BnfProvider.isbn_to_ark` (modules/bnf/api.py lines
52-101): the whole body runs under `suppress(Exception)`, so any exception
yields `None`; a found but empty `id` attribute is falsy and also yields
`None`. -/
def isbn_to_ark (o : Oracle) (isbn : String) : Option String :=
  let body : Except PyErr (Option String) := do
    let c := clean_isbn isbn
    let response ← o.fetch (bnf_sru_url c)
    if response.status ≠ 200 then pure none
    else do
      let ark? ← o.xmlFindArk response.content
      match ark? with
      | some a => if a ≠ "" then pure (some a) else pure none
      | none => pure none
  match body with
  | Except.ok v => v
  | Except.error _ => none

/-- Embedding of the body of `BnfProvider.get_thumbnail_url`
(modules/bnf/api.py lines 104-152), before the decorator. -/
def bnf_inner (o : Oracle) (isbn : String) : Except PyErr PyVal := do
  let c := clean_isbn isbn
  match isbn_to_ark o c with
  | none => pure (PyVal.pyTuple none "bnf")
  | some ark => do
    let url := "http://catalogue.bnf.fr/couverture?appName=NE&idArk=" ++ ark
      ++ "&couverture=1"
    let response ← o.fetch url
    if response.status = 200 then
      if response.contentType.startsWith "image/" then
        if validate_image_content o.decode (some response.content) "BNF" c 10
        then pure (PyVal.pyTuple (some url) "bnf")
        else pure (PyVal.pyTuple none "bnf")
      else pure (PyVal.pyTuple none "bnf")
    else pure (PyVal.pyTuple none "bnf")

/-- Decorated `BnfProvider.get_thumbnail_url`. -/
def bnf_resolve (o : Oracle) (isbn : String) : PyVal × List String :=
  handle_provider_errors "BNF" (bnf_inner o) isbn

/-! ## modules/google_books/api.py : GoogleBooksProvider (lines 32-89) -/

/-- Embedding of the body of `GoogleBooksProvider.get_thumbnail_url`
(modules/google_books/api.py lines 40-89), before the decorator.  The JSONP
text handling (`strip`, `find("(")`, `rfind(")")`, slicing) is embedded
directly; `json.loads` plus the `thumbnail_url` lookup is the `gbJson`
oracle, whose `valueError` outcome is caught locally as in the source. -/
def google_books_inner (o : Oracle) (isbn : String) : Except PyErr PyVal := do
  let c := clean_isbn isbn
  let url := "https://books.google.com/books?jscmd=viewapi&callback=book&bibkeys=" ++ c
  let response ← o.fetch url
  if response.status = 200 then
    let text := pyStrip response.text
    match findIdxOf text.data '(', rfindIdxOf text.data ')' with
    | some start, some stop =>
      if start < stop then
        let jsonText : String := ⟨(text.data.drop (start + 1)).take (stop - (start + 1))⟩
        match o.gbJson jsonText with
        | Except.error (PyErr.valueError _) => pure PyVal.pyNone
        | Except.error e => throw e
        | Except.ok none => pure PyVal.pyNone
        | Except.ok (some t) =>
          if t = "" then pure PyVal.pyNone
          else
            match o.fetch t with
            | Except.error _ => pure PyVal.pyNone
            | Except.ok ir =>
              if ir.status = 200 then
                if validate_image_content o.decode (some ir.content) "Google Books" c 10
                then pure (PyVal.pyStr t)
                else pure PyVal.pyNone
              else pure PyVal.pyNone
      else pure PyVal.pyNone
    | _, _ => pure PyVal.pyNone
  else pure PyVal.pyNone

/-- Decorated `GoogleBooksProvider.get_thumbnail_url`. -/
def google_books_resolve (o : Oracle) (isbn : String) : PyVal × List String :=
  handle_provider_errors "Google Books" (google_books_inner o) isbn

/-! ## modules/google_api/api.py : GoogleApiProvider (lines 30-87) -/

/-- Embedding of the body of `GoogleApiProvider.get_thumbnail_url`
(modules/google_api/api.py lines 48-87), before the decorator. -/
def google_api_inner (o : Oracle) (isbn : String) : Except PyErr PyVal := do
  let c := clean_isbn isbn
  let url := "https://www.googleapis.com/books/v1/volumes?q=isbn:" ++ c
  let response ← o.fetch url
  if response.status = 200 then do
    let data ← o.gaJson response
    if data.totalItems = some 1 ∧ data.itemsNonempty then
      match data.thumbnail with
      | some t =>
        if t = "" then pure (PyVal.pyTuple none "google api")
        else
          match o.fetch t with
          | Except.error _ => pure (PyVal.pyTuple none "google api")
          | Except.ok ir =>
            if ir.status = 200 then
              if validate_image_content o.decode (some ir.content) "Google API" c 10
              then pure (PyVal.pyTuple (some t) "google api")
              else pure (PyVal.pyTuple none "google api")
            else pure (PyVal.pyTuple none "google api")
      | none => pure (PyVal.pyTuple none "google api")
    else pure (PyVal.pyTuple none "google api")
  else pure (PyVal.pyTuple none "google api")

/-- Decorated `GoogleApiProvider.get_thumbnail_url`. -/
def google_api_resolve (o : Oracle) (isbn : String) : PyVal × List String :=
  handle_provider_errors "Google API" (google_api_inner o) isbn

/-! ## modules/dnb/api.py : DnbProvider (lines 30-157) -/

/-- Keyword test on a candidate URL (modules/dnb/api.py line 103). -/
def dnbUrlKeyword (s : String) : Bool :=
  containsSub s "cover" || containsSub s "thumbnail" || containsSub s "bild"

/-- Keyword test on an 856 subfield-x note (modules/dnb/api.py line 120). -/
def dnbNoteKeyword (s : String) : Bool :=
  containsSub s "cover" || containsSub s "umschlag" || containsSub s "thumbnail"

/-- Image probe repeated at three places of `DnbProvider.get_thumbnail_url`:
fetch a URL and check status 200 plus image-content validity. -/
def dnb_fetch_validate (o : Oracle) (url isbn : String) : Except PyErr Bool := do
  let ir ← o.fetch url
  pure (ir.status = 200 && validate_image_content o.decode (some ir.content) "DNB" isbn 10)

/-- Loop over the 856 datafields of one record
(modules/dnb/api.py lines 95-137). -/
def dnbTry856 (o : Oracle) (isbn : String) :
    List Dnb856 → Except PyErr (Option String)
  | [] => pure none
  | df :: rest =>
    match df.u with
    | some utext =>
      if utext ≠ "" then do
        let url := pyStrip utext
        let hit1 ← if dnbUrlKeyword (pyLower url) then dnb_fetch_validate o url isbn
          else pure false
        if hit1 then pure (some url)
        else
          match df.x with
          | some ntext =>
            if ntext ≠ "" ∧ dnbNoteKeyword (pyLower ntext) then do
              let hit2 ← dnb_fetch_validate o url isbn
              if hit2 then pure (some url) else dnbTry856 o isbn rest
            else dnbTry856 o isbn rest
          | none => dnbTry856 o isbn rest
      else dnbTry856 o isbn rest
    | none => dnbTry856 o isbn rest

/-- Loop over the 020 datafields of one record
(modules/dnb/api.py lines 139-155). -/
def dnbTry020 (o : Oracle) (constructedUrl isbn : String) :
    List Bool → Except PyErr (Option String)
  | [] => pure none
  | hasA :: rest =>
    if hasA then do
      let hit ← dnb_fetch_validate o constructedUrl isbn
      if hit then pure (some constructedUrl)
      else dnbTry020 o constructedUrl isbn rest
    else dnbTry020 o constructedUrl isbn rest

/-- Loop over the records of a DNB SRU response
(modules/dnb/api.py lines 93-155). -/
def dnbRecordsLoop (o : Oracle) (constructedUrl isbn : String) :
    List DnbRecord → Except PyErr (Option String)
  | [] => pure none
  | r :: rest => do
    match ← dnbTry856 o isbn r.f856 with
    | some u => pure (some u)
    | none =>
      match ← dnbTry020 o constructedUrl isbn r.f020 with
      | some u => pure (some u)
      | none => dnbRecordsLoop o constructedUrl isbn rest

/-- Embedding of the body of `DnbProvider.get_thumbnail_url`
(modules/dnb/api.py lines 52-157), before the decorator.  Everything after
the SRU fetch runs under `suppress(ElementTree.ParseError, Exception)`, so
exceptions inside the search are converted to the failure form locally. -/
def dnb_inner (o : Oracle) (isbn0 : String) : Except PyErr PyVal := do
  let isbn := clean_isbn isbn0
  if isbn = "" then pure (PyVal.pyTuple none "dnb")
  else do
    let sru := "https://services.dnb.de/sru/dnb?version=1.1&operation=searchRetrieve&query=isbn="
      ++ isbn ++ "&recordSchema=MARC21-xml&maximumRecords=1"
    let response ← o.fetch sru
    if response.status ≠ 200 then pure (PyVal.pyTuple none "dnb")
    else
      let search : Except PyErr (Option String) := do
        let recs ← o.dnbParse response.content
        if recs = [] then pure none
        else dnbRecordsLoop o ("https://portal.dnb.de/opac/mvb/cover?isbn=" ++ isbn) isbn recs
      match search with
      | Except.error _ => pure (PyVal.pyTuple none "dnb")
      | Except.ok (some u) => pure (PyVal.pyTuple (some u) "dnb")
      | Except.ok none => pure (PyVal.pyTuple none "dnb")

/-- Decorated `DnbProvider.get_thumbnail_url`. -/
def dnb_resolve (o : Oracle) (isbn : String) : PyVal × List String :=
  handle_provider_errors "DNB" (dnb_inner o) isbn

/-! ## modules/files/api.py : FilesProvider (lines 27-116)

`get_thumbnail_path` searches the configured directory for
isbn.jpg/.jpeg/.png; configuration access and the search are summarised by
the `filePath` oracle and run under `suppress(Exception)`, returning `None`
on any exception.  `get_thumbnail_url` is NOT decorated with
`handle_provider_errors`; it always returns the tuple `(url_or_None,
"files")` and emits no log on the exception path. -/

/-- Embedding of `FilesProvider.get_thumbnail_path`
(modules/files/api.py lines 43-83). -/
def files_get_thumbnail_path (o : Oracle) (isbn : String) : Option String :=
  let c := clean_isbn isbn
  match o.filePath c with
  | Except.error _ => none
  | Except.ok p => p

/-- Embedding of `FilesProvider.get_thumbnail_url`
(modules/files/api.py lines 85-116). -/
def files_get_thumbnail_url (o : Oracle) (baseUrl isbn : String) : PyVal :=
  let c := clean_isbn isbn
  match files_get_thumbnail_path o c with
  | none => PyVal.pyTuple none "files"
  | some _ => PyVal.pyTuple (some (baseUrl ++ "/thumbnails/" ++ c)) "files"

/-- `FilesProvider.get_thumbnail_url` seen with the same result shape as the
decorated providers: returned value plus emitted exception-handler log
messages (`suppress` logs nothing). -/
def files_resolve (o : Oracle) (baseUrl isbn : String) : PyVal × List String :=
  (files_get_thumbnail_url o baseUrl isbn, [])

/-! ## api.py : get_thumbnail_url (lines 159-217)

The resolver iterates the configured provider list; each configured provider
is modelled as its name together with the value its `get_thumbnail_url`
method returns for an ISBN (a `PyVal`, since the registered providers
variously return `None`, a `str`, or a tuple).  The walrus test
`if url := provider.get_thumbnail_url(isbn)` is Python truthiness, i.e.
`pyTruthy`.  The default cache backend (`RERO_INVENIO_THUMBNAILS_CACHE_TYPE`
unset) is Redis; the embedding uses the Redis model.  The result is the
returned value together with the updated cache state and the list of
provider names whose `get_thumbnail_url` was invoked, in order. -/

/-- Decoding performed on a cache hit (api.py lines 195-199): bytes are
UTF-8-decoded, then the sentinel string "None" maps to Python `None`; any
other value (e.g. a cached tuple) is returned unchanged since it compares
unequal to the string "None". -/
def decodeCachedUrl : PyVal → PyVal
  | PyVal.pyBytes b => if bytesStr b = "None" then PyVal.pyNone else PyVal.pyStr (bytesStr b)
  | PyVal.pyStr s => if s = "None" then PyVal.pyNone else PyVal.pyStr s
  | v => v

/-- Encoding performed before caching a truthy result (api.py line 211):
`url.encode("utf-8") if isinstance(url, str) else url`. -/
def encodeForCache : PyVal → PyVal
  | PyVal.pyStr s => PyVal.pyBytes (strBytes s)
  | v => v

/-- Negative marker written when no provider returned a truthy value
(api.py line 216): the byte string b"None". -/
def noneMarker : PyVal := PyVal.pyBytes (strBytes "None")

/-- Provider loop of `get_thumbnail_url` (api.py lines 206-212): returns the
names invoked, in order, and the first truthy result if any. -/
def providerLoop (isbn : String) :
    List (String × (String → PyVal)) → List String × Option PyVal
  | [] => ([], none)
  | (name, resolve) :: rest =>
    let r := resolve isbn
    if pyTruthy r then ([name], some r)
    else
      let (tr, res) := providerLoop isbn rest
      (name :: tr, res)

/-- Embedding of `get_thumbnail_url` (api.py lines 159-217) over the Redis
cache backend.  `providers` is the configured provider list (name and
resolution function), `timeout` the configured cache TTL. -/
def get_thumbnail_url (providers : List (String × (String → PyVal)))
    (timeout : Int) (isbn : String) (cached : Bool) (cache : RedisState) :
    PyVal × RedisState × List String :=
  let key := urlCacheKey isbn
  let hit : Option PyVal :=
    if cached then
      match RedisCache.get cache key with
      | some v => if v = PyVal.pyNone then none else some v
      | none => none
    else none
  match hit with
  | some v => (decodeCachedUrl v, cache, [])
  | none =>
    let (tr, res) := providerLoop isbn providers
    match res with
    | some r =>
      (r, if cached then RedisCache.set cache key (encodeForCache r) timeout else cache, tr)
    | none =>
      (PyVal.pyNone,
       if cached then RedisCache.set cache key noneMarker timeout else cache, tr)

/-! ## Auxiliary definitions used by the theorems below -/

/-- Base-10 accumulator step reading a decimal digit character; folding it
over `(Nat.repr n).data` recovers `n` (proved below), which makes `Nat.repr`
injective. -/
def reprStep (a : Nat) (c : Char) : Nat := 10 * a + (c.toNat - 48)

/-- Expiry timestamp computed by `FilesystemCache.set` (api.py line 146):
`int(time.time() + timeout) if timeout > 0 else 0`. -/
def fsExpiry (ttl : Int) (now : Nat) : Nat := if 0 < ttl then now + ttl.toNat else 0

/-- Oracle on which every external call fails or returns nothing: the
network raises `requests.RequestException`, `isbnlib` and `response.json()`
raise, image decoding fails, the files directory lookup raises `OSError`
(an `Exception` that is neither `ValueError` nor `RequestException`). -/
def oracleAllFail : Oracle where
  fetch := fun _ => Except.error (PyErr.requestError "connection refused")
  decode := fun _ => none
  toIsbn10 := fun _ => Except.error (PyErr.otherError "bad isbn")
  xmlFindArk := fun _ => Except.ok none
  gbJson := fun _ => Except.ok none
  gaJson := fun _ => Except.error (PyErr.otherError "no json")
  dnbParse := fun _ => Except.ok []
  filePath := fun _ => Except.error (PyErr.otherError "disk failure")

/-- SRU response used by the BNF witness oracle. -/
def bnfSruResp : Response where
  status := 200
  contentType := "text/xml"
  content := [60]
  text := ""

/-- Oracle whose BNF SRU lookup succeeds with an ARK for the ISBN "x" while
the subsequent cover fetch raises: the exception arises after the
`suppress`-protected `isbn_to_ark` step, inside the decorated body. -/
def oracleBnfCoverDown : Oracle :=
  { oracleAllFail with
    fetch := fun u =>
      if u = bnf_sru_url "x" then Except.ok bnfSruResp
      else Except.error (PyErr.requestError "connection refused"),
    xmlFindArk := fun _ => Except.ok (some "ark:/12148/cb453669163") }

/-- Oracle of a `FilesProvider` whose configured directory holds no file:
`get_thumbnail_path` returns `None` without raising. -/
def oracleNoFile : Oracle :=
  { oracleAllFail with filePath := fun _ => Except.ok none }

/-- Configured "files" provider entry backed by `oracleNoFile`, as
registered in PROVIDERS (api.py line 62) and instantiated by the resolver. -/
def filesProviderFun (isbn : String) : PyVal :=
  (files_resolve oracleNoFile "http://localhost" isbn).1

/-- Stub of a succeeding Amazon provider: resolution yields a URL string. -/
def amazonStubUrl : String :=
  "https://images-na.ssl-images-amazon.com/images/P/0134685997.08._SCLZZZZZZZ_.jpg"

/-- Provider chain used for the C1 failing input: the files provider (no
local file) followed by a provider that would succeed. -/
def c1Providers : List (String × (String → PyVal)) :=
  [("files", filesProviderFun), ("amazon", fun _ => PyVal.pyStr amazonStubUrl)]

/-- Image decoder used by the validator witness: byte string [1] decodes to
a 10 by 10 image, [2] to a 9 by 9 image, anything else fails to decode. -/
def decodeBoundary : List Nat → Option (Nat × Nat) := fun b =>
  if b = [1] then some (10, 10) else if b = [2] then some (9, 9) else none

/-- HTTP 500 response (non-image), for the no-retry-on-status scenario. -/
def resp500 : Response where
  status := 500
  contentType := "text/html"
  content := []
  text := ""

/-- HTTP 200 image response, for the retry-then-success scenario. -/
def resp200 : Response where
  status := 200
  contentType := "image/jpeg"
  content := [255, 216]
  text := ""

/-- Network where the first two attempts fail with a connection error and
the third succeeds. -/
def netFlaky : Nat → Attempt := fun i =>
  if i < 2 then Attempt.requestExc "connection reset" else Attempt.ok resp200

/-! # Theorems -/

/-! ## C10 : clean_isbn -/

/-- List-level description of `clean_isbn`: it filters out exactly the
characters that are a hyphen or a space. -/
theorem clean_isbn_data (s : String) :
    (clean_isbn s).data = s.data.filter (fun c => decide (c ≠ ' ') && decide (c ≠ '-')) := by
  show (s.data.filter _).filter _ = _
  rw [List.filter_filter]

/-- C10: identifier normalization `clean_isbn` is idempotent, removes
exactly the hyphen and space characters (it returns the input filtered of
those two characters, in order, with no other transformation), is total (a
Lean function), is the identity on strings containing neither character,
and maps "978-0-13-468599-1" to "9780134685991". -/
theorem clean_isbn_spec :
    (∀ s : String, clean_isbn (clean_isbn s) = clean_isbn s) ∧
    (∀ s : String, (clean_isbn s).data =
      s.data.filter (fun c => decide (c ≠ ' ') && decide (c ≠ '-'))) ∧
    (∀ s : String, (∀ c ∈ s.data, c ≠ '-' ∧ c ≠ ' ') → clean_isbn s = s) ∧
    clean_isbn "978-0-13-468599-1" = "9780134685991" := by
  refine ⟨fun s => ?_, clean_isbn_data, fun s h => ?_, by decide⟩
  · cases s with
    | mk l =>
      show String.mk _ = String.mk _
      congr 1
      show (clean_isbn (clean_isbn ⟨l⟩)).data = (clean_isbn ⟨l⟩).data
      rw [clean_isbn_data, clean_isbn_data, List.filter_filter]
      exact List.filter_congr (fun c _ => by simp [Bool.and_assoc, Bool.and_comm])
  · cases s with
    | mk l =>
      show String.mk _ = String.mk _
      congr 1
      show (clean_isbn ⟨l⟩).data = l
      rw [clean_isbn_data]
      refine List.filter_eq_self.mpr (fun c hc => ?_)
      simp only [Bool.and_eq_true, decide_eq_true_eq]
      exact ⟨(h c hc).2, (h c hc).1⟩

/-- Witness for C10: the identity-on-clean-input conjunct applied at the
already-clean ISBN "9780134685991". -/
theorem clean_isbn_spec_witness :
    (∀ c ∈ ("9780134685991" : String).data, c ≠ '-' ∧ c ≠ ' ') ∧
    clean_isbn "9780134685991" = "9780134685991" :=
  ⟨by decide, clean_isbn_spec.2.2.1 "9780134685991" (by decide)⟩

/-! ## C8 : validate_image_content -/

/-- C8: `validate_image_content` returns false for absent or empty content,
false when the content does not decode as an image, and for decodable
non-empty content it returns true exactly when both decoded dimensions are
at least `min_dimension` (so a dimension strictly below the minimum fails).
It is a total Lean function, modelling that the Python never raises. -/
theorem validate_image_content_spec
    (decode : List Nat → Option (Nat × Nat)) (pn ib : String) (minDim : Nat) :
    (validate_image_content decode none pn ib minDim = false) ∧
    (validate_image_content decode (some []) pn ib minDim = false) ∧
    (∀ b, decode b = none → validate_image_content decode (some b) pn ib minDim = false) ∧
    (∀ b w h, b ≠ [] → decode b = some (w, h) →
      (validate_image_content decode (some b) pn ib minDim = true ↔
        minDim ≤ w ∧ minDim ≤ h)) := by
  refine ⟨rfl, rfl, fun b hb => ?_, fun b w h hb hd => ?_⟩
  · by_cases h0 : b = [] <;> simp [validate_image_content, h0, hb]
  · simp only [validate_image_content, hb, if_false, hd]
    by_cases hc : w < minDim ∨ h < minDim <;> simp [hc] <;> omega

/-- Witness for C8: a decoder reporting 10 by 10 on the byte string [1]
passes the validator with minimum dimension 10, while a 9 by 9 decode and
empty or undecodable content fail. -/
theorem validate_image_content_spec_witness :
    ([1] : List Nat) ≠ [] ∧ decodeBoundary [1] = some (10, 10) ∧
    validate_image_content decodeBoundary (some [1]) "p" "i" 10 = true ∧
    decodeBoundary [2] = some (9, 9) ∧
    ¬ validate_image_content decodeBoundary (some [2]) "p" "i" 10 = true ∧
    validate_image_content decodeBoundary (some []) "p" "i" 10 = false := by
  refine ⟨by decide, by decide, ?_, by decide, ?_, ?_⟩
  · exact ((validate_image_content_spec decodeBoundary "p" "i" 10).2.2.2
      [1] 10 10 (by decide) (by decide)).mpr (by decide)
  · intro htrue
    have h99 := ((validate_image_content_spec decodeBoundary "p" "i" 10).2.2.2
      [2] 9 9 (by decide) (by decide)).mp htrue
    omega
  · exact (validate_image_content_spec decodeBoundary "p" "i" 10).2.1

/-! ## C6 : _resize_image -/

/-- Counterexample for C6: the claim says the missing dimension is computed
by rounding the exact ratio to the nearest integer pixel.  On a 5 by 3
source with height 1 the exact ratio is 5/3, whose nearest integer is 2,
but `_resize_image` computes `int(1 * 5 / 3) = 1`: the code truncates
(floors), it does not round to nearest. -/
theorem resize_image_round_counterexample :
    resize_image ⟨5, 3⟩ none (some 1) = ⟨1, 1⟩ ∧
    round ((1 * 5 : ℚ) / 3) = 2 ∧
    resize_image ⟨5, 3⟩ none (some 1) ≠ ⟨Int.toNat (round ((1 * 5 : ℚ) / 3)), 1⟩ := by
  have hr : round ((1 * 5 : ℚ) / 3) = 2 := by norm_num [round_eq]
  refine ⟨by decide, hr, ?_⟩
  rw [hr]
  decide

/-- C6 (amended): `_resize_image` returns the image unchanged when neither
dimension is given or when the decoded source reports a zero dimension
(without raising); resizes to exactly the target pair when both are given;
and when exactly one is given computes the other as the floor (truncation
toward zero, Python `int()`) of the exact rational proportion — not the
nearest integer. -/
theorem resize_image_spec (img : PILImage) (w h : Nat) (wo ho : Option Nat) :
    (resize_image img none none = img) ∧
    (img.width = 0 ∨ img.height = 0 → resize_image img wo ho = img) ∧
    (w ≠ 0 → h ≠ 0 → img.width ≠ 0 → img.height ≠ 0 →
      resize_image img (some w) (some h) = ⟨w, h⟩) ∧
    (w ≠ 0 → img.width ≠ 0 → img.height ≠ 0 →
      resize_image img (some w) none =
        ⟨w, ⌊(w * img.height : ℚ) / (img.width : ℚ)⌋₊⟩) ∧
    (h ≠ 0 → img.width ≠ 0 → img.height ≠ 0 →
      resize_image img none (some h) =
        ⟨⌊(h * img.width : ℚ) / (img.height : ℚ)⌋₊, h⟩) := by
  have hfloor : ∀ a b : Nat, ⌊(a * b : ℚ) / (b : ℚ)⌋₊ = a * b / b := by
    intro a b
    rw [← Nat.cast_mul, Nat.floor_div_nat, Nat.floor_natCast]
  refine ⟨by simp [resize_image, truthyDim], fun h0 => ?_, fun hw hh hiw hih => ?_,
    fun hw hiw hih => ?_, fun hh hiw hih => ?_⟩
  · by_cases hto : ¬ truthyDim wo ∧ ¬ truthyDim ho <;> simp [resize_image, hto, h0]
  · simp [resize_image, truthyDim, hw, hh, hiw, hih, orZero]
  · have : ⌊((w : ℚ) * (img.height : ℚ)) / (img.width : ℚ)⌋₊ = w * img.height / img.width := by
      rw [← Nat.cast_mul, Nat.floor_div_nat, Nat.floor_natCast]
    simp [resize_image, truthyDim, hw, hiw, hih, orZero, this]
  · have : ⌊((h : ℚ) * (img.width : ℚ)) / (img.height : ℚ)⌋₊ = h * img.width / img.height := by
      rw [← Nat.cast_mul, Nat.floor_div_nat, Nat.floor_natCast]
    simp [resize_image, truthyDim, hh, hiw, hih, orZero, this]

/-- Witness for C6: a 200 by 100 source resized with height 50 yields the
floor of the exact proportion, which evaluates to width 100; with both
dimensions given the exact pair is produced; a 0 by 0 source is returned
unresized. -/
theorem resize_image_spec_witness :
    resize_image ⟨200, 100⟩ none (some 50) =
      ⟨⌊(50 * 200 : ℚ) / (100 : ℚ)⌋₊, 50⟩ ∧
    (⌊(50 * 200 : ℚ) / (100 : ℚ)⌋₊ = 100) ∧
    resize_image ⟨200, 100⟩ (some 20) (some 30) = ⟨20, 30⟩ ∧
    resize_image ⟨0, 0⟩ (some 5) (some 7) = ⟨0, 0⟩ := by
  refine ⟨?_, by norm_num, ?_, ?_⟩
  · have := (resize_image_spec ⟨200, 100⟩ 1 50 none none).2.2.2.2
    simpa using this (by decide) (by decide) (by decide)
  · exact (resize_image_spec ⟨200, 100⟩ 20 30 none none).2.2.1
      (by decide) (by decide) (by decide) (by decide)
  · exact (resize_image_spec ⟨0, 0⟩ 5 7 (some 5) (some 7)).2.1 (Or.inl rfl)

/-! ## C7 : FilesystemCache -/

/-- Explicit byte list produced by the big-endian 8-byte serialisation. -/
theorem toBE8_eq (n : Nat) :
    toBE8 n = [n / 256 ^ 7 % 256, n / 256 ^ 6 % 256, n / 256 ^ 5 % 256,
      n / 256 ^ 4 % 256, n / 256 ^ 3 % 256, n / 256 ^ 2 % 256,
      n / 256 ^ 1 % 256, n / 256 ^ 0 % 256] := by
  simp [toBE8, List.range_succ]

/-- Round-trip of the 8-byte big-endian expiry header: reading back the
first 8 bytes recovers the timestamp, for any value that fits. -/
theorem fromBE_toBE8 (n : Nat) (h : n < 18446744073709551616) :
    fromBE (toBE8 n) = n := by
  rw [toBE8_eq]
  simp only [fromBE, List.foldl_cons, List.foldl_nil]
  norm_num
  omega

theorem toBE8_length (n : Nat) : (toBE8 n).length = 8 := by simp [toBE8]

/-- Behaviour of a filesystem-cache entry through its lifetime: layout of
the written file, reads before expiry, and lazy expiry deletion.  Shared by
the C7 and C9 developments. -/
theorem filesystem_cache_props (st : FsState) (key : String) (v : PyVal)
    (ttl : Int) (now : Nat)
    (hbound : now + ttl.toNat < 18446744073709551616) :
    ((FilesystemCache.set st key v ttl now).find? (fun en => en.1 = key) =
      some (key, toBE8 (fsExpiry ttl now) ++ fsValueBytes v)) ∧
    (fromBE ((toBE8 (fsExpiry ttl now) ++ fsValueBytes v).take 8) = fsExpiry ttl now) ∧
    (fsExpiry ttl now = if 0 < ttl then now + ttl.toNat else 0) ∧
    (∀ t, 0 < fsExpiry ttl now → t ≤ fsExpiry ttl now →
      FilesystemCache.get (FilesystemCache.set st key v ttl now) key t =
        (some (fsValueBytes v), FilesystemCache.set st key v ttl now)) ∧
    (fsExpiry ttl now = 0 → ∀ t,
      FilesystemCache.get (FilesystemCache.set st key v ttl now) key t =
        (some (fsValueBytes v), FilesystemCache.set st key v ttl now)) ∧
    (∀ t, 0 < fsExpiry ttl now → fsExpiry ttl now < t →
      (FilesystemCache.get (FilesystemCache.set st key v ttl now) key t).1 = none ∧
      ((FilesystemCache.get (FilesystemCache.set st key v ttl now) key t).2.find?
        (fun en => en.1 = key)) = none) := by
  have he : (if 0 < ttl then now + ttl.toNat else 0) < 18446744073709551616 := by
    split <;> omega
  have hset : FilesystemCache.set st key v ttl now =
      (key, toBE8 (fsExpiry ttl now) ++ fsValueBytes v) ::
        st.filter (fun e => e.1 ≠ key) := by
    simp only [FilesystemCache.set, if_pos he]
    rfl
  have hfind : (FilesystemCache.set st key v ttl now).find? (fun en => en.1 = key) =
      some (key, toBE8 (fsExpiry ttl now) ++ fsValueBytes v) := by
    rw [hset]
    simp [List.find?]
  have htake : (toBE8 (fsExpiry ttl now) ++ fsValueBytes v).take 8 =
      toBE8 (fsExpiry ttl now) := by
    rw [← toBE8_length (fsExpiry ttl now)]
    exact List.take_left _ _
  have hdrop : (toBE8 (fsExpiry ttl now) ++ fsValueBytes v).drop 8 = fsValueBytes v := by
    rw [← toBE8_length (fsExpiry ttl now)]
    exact List.drop_left _ _
  have heBound : fsExpiry ttl now < 18446744073709551616 := he
  have hround : fromBE ((toBE8 (fsExpiry ttl now) ++ fsValueBytes v).take 8) =
      fsExpiry ttl now := by rw [htake]; exact fromBE_toBE8 _ heBound
  have hlen : ¬ (toBE8 (fsExpiry ttl now) ++ fsValueBytes v).length < 8 := by
    simp [List.length_append, toBE8_length]
  refine ⟨hfind, hround, rfl, fun t h0 hle => ?_, fun h0 t => ?_, fun t h0 hlt => ?_⟩
  · simp only [FilesystemCache.get, hfind, hlen, if_false, hround]
    rw [if_neg (by omega), hdrop]
  · simp only [FilesystemCache.get, hfind, hlen, if_false, hround]
    rw [if_neg (by omega), hdrop]
  · simp only [FilesystemCache.get, hfind, hlen, if_false, hround]
    rw [if_pos (by omega)]
    refine ⟨rfl, ?_⟩
    rw [hset]
    refine List.find?_eq_none.mpr (fun x hx => ?_)
    simp only [List.filter_cons, decide_not] at hx
    rw [if_neg (by simp)] at hx
    have := List.of_mem_filter (by exact hx)
    simpa using this

/-- C7: `FilesystemCache.set` writes, under the key, a file whose first 8
bytes are the big-endian expiry `now + ttl` (0 when ttl ≤ 0, never
expires), followed by the raw value bytes; `FilesystemCache.get` returns
the stored value while a nonzero expiry has not passed (and always, for a
zero expiry), and once the current time exceeds a nonzero expiry it deletes
the cache file and returns absent. -/
theorem filesystem_cache_spec (st : FsState) (key : String) (v : PyVal)
    (ttl : Int) (now : Nat)
    (hbound : now + ttl.toNat < 18446744073709551616) :
    ((FilesystemCache.set st key v ttl now).find? (fun en => en.1 = key) =
      some (key, toBE8 (fsExpiry ttl now) ++ fsValueBytes v)) ∧
    (fromBE ((toBE8 (fsExpiry ttl now) ++ fsValueBytes v).take 8) = fsExpiry ttl now) ∧
    (fsExpiry ttl now = if 0 < ttl then now + ttl.toNat else 0) ∧
    (∀ t, 0 < fsExpiry ttl now → t ≤ fsExpiry ttl now →
      FilesystemCache.get (FilesystemCache.set st key v ttl now) key t =
        (some (fsValueBytes v), FilesystemCache.set st key v ttl now)) ∧
    (fsExpiry ttl now = 0 → ∀ t,
      FilesystemCache.get (FilesystemCache.set st key v ttl now) key t =
        (some (fsValueBytes v), FilesystemCache.set st key v ttl now)) ∧
    (∀ t, 0 < fsExpiry ttl now → fsExpiry ttl now < t →
      (FilesystemCache.get (FilesystemCache.set st key v ttl now) key t).1 = none ∧
      ((FilesystemCache.get (FilesystemCache.set st key v ttl now) key t).2.find?
        (fun en => en.1 = key)) = none) :=
  filesystem_cache_props st key v ttl now hbound

/-- Witness for C7: with TTL 1 second written at time 100, the entry reads
back at times 100 and 101 and expires at 102, at which point the file is
removed. -/
theorem filesystem_cache_spec_witness :
    (100 + (1 : Int).toNat < 18446744073709551616) ∧
    FilesystemCache.get (FilesystemCache.set [] "k" (PyVal.pyBytes [1, 2]) 1 100) "k" 101 =
      (some (fsValueBytes (PyVal.pyBytes [1, 2])),
        FilesystemCache.set [] "k" (PyVal.pyBytes [1, 2]) 1 100) ∧
    (FilesystemCache.get (FilesystemCache.set [] "k" (PyVal.pyBytes [1, 2]) 1 100) "k" 102).1 =
      none ∧
    ((FilesystemCache.get (FilesystemCache.set [] "k" (PyVal.pyBytes [1, 2]) 1 100) "k" 102).2.find?
        (fun en => en.1 = "k")) = none := by
  have h := filesystem_cache_spec [] "k" (PyVal.pyBytes [1, 2]) 1 100 (by norm_num)
  have hexp : fsExpiry 1 100 = 101 := by decide
  refine ⟨by norm_num, ?_, ?_, ?_⟩
  · exact h.2.2.2.1 101 (by rw [hexp]; norm_num) (by rw [hexp])
  · exact (h.2.2.2.2.2 102 (by rw [hexp]; norm_num) (by rw [hexp]; norm_num)).1
  · exact (h.2.2.2.2.2 102 (by rw [hexp]; norm_num) (by rw [hexp]; norm_num)).2

/-! ## C9 : cache backend interchangeability -/

/-- Redis-model round trip: `get` after `set` returns the stored value. -/
theorem redis_get_set (rc : RedisState) (k : String) (v : PyVal) (t : Int) :
    RedisCache.get (RedisCache.set rc k v t) k = some v := by
  simp [RedisCache.get, RedisCache.set, List.find?]

/-- Counterexample for C9: for the string value "a", the Redis backend
returns the string itself while the filesystem backend returns its UTF-8
encoding as bytes — the two backends do not return the same value for
string values. -/
theorem cache_backend_divergence :
    RedisCache.get (RedisCache.set [] "k" (PyVal.pyStr "a") 10) "k" =
      some (PyVal.pyStr "a") ∧
    (FilesystemCache.get (FilesystemCache.set [] "k" (PyVal.pyStr "a") 10 0) "k" 0).1 =
      some (strBytes "a") ∧
    PyVal.pyStr "a" ≠ PyVal.pyBytes (strBytes "a") := by
  refine ⟨by decide, by decide, by decide⟩

/-- C9 (amended): the two cache backends agree on byte values — for every
key, byte-string value and positive ttl, `set` followed by `get` before
expiry returns exactly the stored bytes under both backends; for string
values the Redis backend returns the string while the filesystem backend
returns its encoded bytes. -/
theorem cache_backend_bytes_agree (rc : RedisState) (fs : FsState) (k : String)
    (b : List Nat) (ttl : Int) (now t : Nat) (h1 : 0 < ttl)
    (h2 : t ≤ now + ttl.toNat) (h3 : now + ttl.toNat < 18446744073709551616) :
    RedisCache.get (RedisCache.set rc k (PyVal.pyBytes b) ttl) k =
      some (PyVal.pyBytes b) ∧
    (FilesystemCache.get (FilesystemCache.set fs k (PyVal.pyBytes b) ttl now) k t).1 =
      some b := by
  have hexp : fsExpiry ttl now = now + ttl.toNat := by simp [fsExpiry, h1]
  have h0 : 0 < fsExpiry ttl now := by rw [hexp]; omega
  have hget := (filesystem_cache_props fs k (PyVal.pyBytes b) ttl now h3).2.2.2.1 t h0
    (by rw [hexp]; exact h2)
  exact ⟨redis_get_set rc k (PyVal.pyBytes b) ttl, by rw [hget]; rfl⟩


/-- Witness for C9: both backends return the byte value [5] stored under
key "k" with TTL 10 written at time 100 and read at time 105. -/
theorem cache_backend_bytes_agree_witness :
    (0 : Int) < 10 ∧ (105 : Nat) ≤ 100 + (10 : Int).toNat ∧
    RedisCache.get (RedisCache.set [] "k" (PyVal.pyBytes [5]) 10) "k" =
      some (PyVal.pyBytes [5]) ∧
    (FilesystemCache.get (FilesystemCache.set [] "k" (PyVal.pyBytes [5]) 10 100) "k" 105).1 =
      some [5] :=
  ⟨by norm_num, by decide,
    (cache_backend_bytes_agree [] [] "k" [5] 10 100 105 (by norm_num) (by decide)
      (by decide)).1,
    (cache_backend_bytes_agree [] [] "k" [5] 10 100 105 (by norm_num) (by decide)
      (by decide)).2⟩

/-! ## C4 : fetch_with_retries -/

/-- A successful attempt ends the retry loop at once, whatever the fuel:
HTTP responses are never retried, whatever their status code. -/
theorem retryLoop_ok (net : Nat → Attempt) (i fuel : Nat) (r : Response)
    (h : net i = Attempt.ok r) : retryLoop net i fuel = (Except.ok r, i + 1) := by
  rw [retryLoop, h]

/-- A non-RequestException attempt propagates at once. -/
theorem retryLoop_other (net : Nat → Attempt) (i fuel : Nat) (m : String)
    (h : net i = Attempt.otherExc m) :
    retryLoop net i fuel = (Except.error (PyErr.otherError m), i + 1) := by
  rw [retryLoop, h]

/-- Out of fuel, a RequestException is re-raised. -/
theorem retryLoop_req_zero (net : Nat → Attempt) (i : Nat) (m : String)
    (h : net i = Attempt.requestExc m) :
    retryLoop net i 0 = (Except.error (PyErr.requestError m), i + 1) := by
  rw [retryLoop, h]

/-- With fuel left, a RequestException triggers the next attempt. -/
theorem retryLoop_req_succ (net : Nat → Attempt) (i fuel : Nat) (m : String)
    (h : net i = Attempt.requestExc m) :
    retryLoop net i (fuel + 1) = retryLoop net (i + 1) fuel := by
  rw [retryLoop, h]

/-- The retry loop performs at most `fuel + 1` further attempts. -/
theorem retryLoop_count (net : Nat → Attempt) :
    ∀ (fuel i : Nat), (retryLoop net i fuel).2 ≤ i + fuel + 1 := by
  intro fuel
  induction fuel with
  | zero =>
    intro i
    cases hni : net i with
    | ok r => rw [retryLoop_ok net i 0 r hni]
    | requestExc m => rw [retryLoop_req_zero net i m hni]
    | otherExc m => rw [retryLoop_other net i 0 m hni]
  | succ fuel ih =>
    intro i
    cases hni : net i with
    | ok r => rw [retryLoop_ok net i _ r hni]; omega
    | otherExc m => rw [retryLoop_other net i _ m hni]; omega
    | requestExc m =>
      rw [retryLoop_req_succ net i fuel m hni]
      exact le_trans (ih (i + 1)) (by omega)

/-- When every attempt raises a RequestException, the loop exhausts its
fuel and re-raises the error of the last attempt. -/
theorem retryLoop_allfail (net : Nat → Attempt) (e : Nat → String)
    (hall : ∀ j, net j = Attempt.requestExc (e j)) :
    ∀ (fuel i : Nat), retryLoop net i fuel =
      (Except.error (PyErr.requestError (e (i + fuel))), i + fuel + 1) := by
  intro fuel
  induction fuel with
  | zero => intro i; rw [retryLoop_req_zero net i _ (hall i)]; simp
  | succ fuel ih =>
    intro i
    rw [retryLoop_req_succ net i fuel _ (hall i), ih (i + 1)]
    have h3 : i + 1 + fuel = i + (fuel + 1) := by omega
    rw [h3]

/-- C4: `fetch_with_retries` returns an HTTP response carrying any status
code after exactly one attempt (status codes, e.g. 404 or 500, are never
retried); exceptions that are not transport errors are not retried either;
at most `attempts` attempts are made when `attempts` is at least 1; with
retries disabled exactly one attempt is performed; and when every attempt
fails with a transport error the loop stops after `max 1 attempts` attempts
and re-raises the error of the last attempt.  A fetch failing twice with a
connection error then succeeding returns the success response on the third
attempt whenever `attempts` is at least 3. -/
theorem fetch_with_retries_spec (disable : Bool) (cfg : RetryConfig)
    (net : Nat → Attempt) :
    (∀ r, net 0 = Attempt.ok r →
      fetch_with_retries disable cfg net = (Except.ok r, 1)) ∧
    (∀ m, net 0 = Attempt.otherExc m →
      fetch_with_retries disable cfg net = (Except.error (PyErr.otherError m), 1)) ∧
    (1 ≤ cfg.attempts → (fetch_with_retries disable cfg net).2 ≤ cfg.attempts) ∧
    (disable = true ∨ cfg.enabled = false →
      (fetch_with_retries disable cfg net).2 = 1) ∧
    (∀ e : Nat → String, (∀ i, net i = Attempt.requestExc (e i)) →
      disable = false → cfg.enabled = true →
      fetch_with_retries disable cfg net =
        (Except.error (PyErr.requestError (e (cfg.attempts - 1))), max 1 cfg.attempts)) ∧
    (disable = false → cfg.enabled = true → 3 ≤ cfg.attempts →
      ∀ m1 m2 r, net 0 = Attempt.requestExc m1 → net 1 = Attempt.requestExc m2 →
        net 2 = Attempt.ok r →
        fetch_with_retries disable cfg net = (Except.ok r, 3)) := by
  refine ⟨fun r h => ?_, fun m h => ?_, fun h1 => ?_, fun hd => ?_,
    fun e hall hd he => ?_, fun hd he h3 m1 m2 r h0 hn1 hn2 => ?_⟩
  · by_cases hc : disable || !cfg.enabled
    · simp [fetch_with_retries, hc, h]
    · rw [fetch_with_retries, if_neg (by simpa using hc)]
      exact retryLoop_ok net 0 _ r h
  · by_cases hc : disable || !cfg.enabled
    · simp [fetch_with_retries, hc, h]
    · rw [fetch_with_retries, if_neg (by simpa using hc)]
      exact retryLoop_other net 0 _ m h
  · by_cases hc : disable || !cfg.enabled
    · cases hni : net 0 <;> simp [fetch_with_retries, hc, hni] <;> omega
    · rw [fetch_with_retries, if_neg (by simpa using hc)]
      have := retryLoop_count net (cfg.attempts - 1) 0
      omega
  · have hc : (disable || !cfg.enabled) = true := by
      rcases hd with hd | hd <;> simp [hd]
    cases hni : net 0 <;> simp [fetch_with_retries, hc, hni]
  · have hc : ¬ (disable || !cfg.enabled) = true := by simp [hd, he]
    rw [fetch_with_retries, if_neg hc, retryLoop_allfail net e hall (cfg.attempts - 1) 0]
    have h4 : 0 + (cfg.attempts - 1) = cfg.attempts - 1 := by omega
    have h5 : cfg.attempts - 1 + 1 = max 1 cfg.attempts := by omega
    rw [h4, h5]
  · have hc : ¬ (disable || !cfg.enabled) = true := by simp [hd, he]
    rw [fetch_with_retries, if_neg hc]
    obtain ⟨k, hk⟩ : ∃ k, cfg.attempts - 1 = k + 2 := ⟨cfg.attempts - 3, by omega⟩
    rw [hk, retryLoop_req_succ net 0 (k + 1) m1 h0,
      retryLoop_req_succ net 1 k m2 hn1, retryLoop_ok net 2 k r hn2]

/-- Witness for C4: with the default configuration (5 attempts, enabled),
the flaky network succeeds on the third attempt; an HTTP 500 response is
returned after exactly one attempt; with retries disabled one attempt is
made; and a network that always raises a connection error exhausts the 5
attempts and re-raises the last error. -/
theorem fetch_with_retries_spec_witness :
    fetch_with_retries false defaultRetryConfig netFlaky = (Except.ok resp200, 3) ∧
    fetch_with_retries false defaultRetryConfig (fun _ => Attempt.ok resp500) =
      (Except.ok resp500, 1) ∧
    (fetch_with_retries true defaultRetryConfig netFlaky).2 = 1 ∧
    fetch_with_retries false defaultRetryConfig
        (fun _ => Attempt.requestExc "connection refused") =
      (Except.error (PyErr.requestError "connection refused"), max 1 5) := by
  refine ⟨?_, ?_, ?_, ?_⟩
  · exact (fetch_with_retries_spec false defaultRetryConfig netFlaky).2.2.2.2.2
      rfl rfl (by decide) "connection reset" "connection reset" resp200
      (by decide) (by decide) (by decide)
  · exact (fetch_with_retries_spec false defaultRetryConfig
      (fun _ => Attempt.ok resp500)).1 resp500 rfl
  · exact (fetch_with_retries_spec true defaultRetryConfig netFlaky).2.2.2.1 (Or.inl rfl)
  · exact (fetch_with_retries_spec false defaultRetryConfig
      (fun _ => Attempt.requestExc "connection refused")).2.2.2.2.1
      (fun _ => "connection refused") (fun i => rfl) rfl rfl

/-! ## C2 : negative-result caching in get_thumbnail_url -/

/-- Timeout recorded by a Redis write: entries carry the TTL passed to
`set`. -/
theorem redis_timeoutOf_set (rc : RedisState) (k : String) (v : PyVal) (t : Int) :
    RedisCache.timeoutOf (RedisCache.set rc k v t) k = some t := by
  simp [RedisCache.timeoutOf, RedisCache.set, List.find?]

/-- C2: with caching enabled and an empty configured provider list, a call
to `get_thumbnail_url` on a cache-miss returns an absent result (Python
`None`; the function returns a bare optional URL), invokes no provider, and
writes the negative marker b"None" to the URL cache under the configured
TTL; a second identical call — indeed any call with any provider list —
then answers absent from the cached negative marker, invoking no provider
and leaving the cache unchanged. -/
theorem negative_cache_spec (isbn : String) (ttl : Int) (cache : RedisState)
    (hmiss : RedisCache.get cache (urlCacheKey isbn) = none) :
    (get_thumbnail_url [] ttl isbn true cache).1 = PyVal.pyNone ∧
    (get_thumbnail_url [] ttl isbn true cache).2.2 = [] ∧
    RedisCache.get (get_thumbnail_url [] ttl isbn true cache).2.1 (urlCacheKey isbn) =
      some noneMarker ∧
    RedisCache.timeoutOf (get_thumbnail_url [] ttl isbn true cache).2.1
      (urlCacheKey isbn) = some ttl ∧
    (∀ ps : List (String × (String → PyVal)),
      get_thumbnail_url ps ttl isbn true (get_thumbnail_url [] ttl isbn true cache).2.1 =
        (PyVal.pyNone, (get_thumbnail_url [] ttl isbn true cache).2.1, [])) := by
  have hrun : get_thumbnail_url [] ttl isbn true cache =
      (PyVal.pyNone, RedisCache.set cache (urlCacheKey isbn) noneMarker ttl, []) := by
    simp [get_thumbnail_url, hmiss, providerLoop]
  have hdec : decodeCachedUrl noneMarker = PyVal.pyNone := by decide
  have hmark : ¬ noneMarker = PyVal.pyNone := by decide
  refine ⟨by rw [hrun], by rw [hrun], ?_, ?_, fun ps => ?_⟩
  · rw [hrun]
    exact redis_get_set cache (urlCacheKey isbn) noneMarker ttl
  · rw [hrun]
    exact redis_timeoutOf_set cache (urlCacheKey isbn) noneMarker ttl
  · rw [hrun]
    simp [get_thumbnail_url, redis_get_set, hmark, hdec]

/-- Witness for C2: two consecutive calls on the ISBN 9780134685991 with an
initially empty cache, TTL 3600 and no providers; the second call is also
instantiated with a provider list containing a would-succeed provider,
which is not consulted because the negative marker answers first. -/
theorem negative_cache_spec_witness :
    RedisCache.get [] (urlCacheKey "9780134685991") = none ∧
    (get_thumbnail_url [] 3600 "9780134685991" true []).1 = PyVal.pyNone ∧
    RedisCache.get (get_thumbnail_url [] 3600 "9780134685991" true []).2.1
      (urlCacheKey "9780134685991") = some noneMarker ∧
    get_thumbnail_url [("amazon", fun _ => PyVal.pyStr amazonStubUrl)] 3600
        "9780134685991" true (get_thumbnail_url [] 3600 "9780134685991" true []).2.1 =
      (PyVal.pyNone, (get_thumbnail_url [] 3600 "9780134685991" true []).2.1, []) := by
  have h := negative_cache_spec "9780134685991" 3600 [] (by decide)
  exact ⟨by decide, h.1, h.2.2.1,
    h.2.2.2.2 [("amazon", fun _ => PyVal.pyStr amazonStubUrl)]⟩

/-! ## C1 : first-match-wins provider chain -/

/-- C1 (code bug): evaluation of `get_thumbnail_url` at the failing input.
With the configured chain ["files", "amazon"], no local file for the ISBN,
and an Amazon provider that would succeed, `FilesProvider.get_thumbnail_url`
returns the tuple `(None, "files")`; the tuple is truthy, so the resolver
stops at the files provider, never invokes Amazon (the invocation trace is
exactly ["files"]), and returns — and caches — the tuple instead of an
absent result.  The repository's own test
`test_get_thumbnail_url_with_cached_none_result` and the docstring of
`get_thumbnail_url` (returns "str or None") require the chain to continue
past a provider that yields no URL. -/
theorem provider_chain_code_bug :
    filesProviderFun "9999999999999" = PyVal.pyTuple none "files" ∧
    pyTruthy (PyVal.pyTuple none "files") = true ∧
    (get_thumbnail_url c1Providers 3600 "9999999999999" true []).1 =
      PyVal.pyTuple none "files" ∧
    (get_thumbnail_url c1Providers 3600 "9999999999999" true []).2.2 = ["files"] ∧
    (get_thumbnail_url c1Providers 3600 "9999999999999" true []).1 ≠ PyVal.pyNone := by
  exact ⟨by decide, by decide, by decide, by decide, by decide⟩

/-! ## C3 : uniform provider error handling -/

/-- Counterexample for C3: the files variant is not wrapped by
`handle_provider_errors`.  When its directory lookup raises (`filePath`
returns an `OSError`-like exception), the exception is swallowed by an
inline `suppress(Exception)` and the failure form `(None, "files")` is
returned with NO log entry — unlike every decorated variant, which logs
exactly one message (here Open Library, on the same all-failing oracle).
So the claim that the uniform wrapper (which catches AND logs) is applied
identically to every variant fails on the files variant. -/
theorem files_provider_silent_exception :
    oracleAllFail.filePath (clean_isbn (clean_isbn "x")) =
      Except.error (PyErr.otherError "disk failure") ∧
    files_resolve oracleAllFail "http://localhost" "x" =
      (PyVal.pyTuple none "files", []) ∧
    (files_resolve oracleAllFail "http://localhost" "x").2 = [] ∧
    (open_library_resolve oracleAllFail "L" "x").2 ≠ [] :=
  ⟨rfl, by decide, by decide, by decide⟩

/-- C3 (amended): whenever the body of any provider variant raises — the
hypothesis `inner ... = Except.error e` covers every exception escaping the
provider-specific protocol, from malformed identifiers to network, parse or
response-shape failures — the `handle_provider_errors` wrapper of the
decorated variants (Open Library, Amazon, BNF, Google Books, Google API,
DNB) catches it, logs one message of the documented shape, and returns the
failure form `(None, lowercased provider name)`.  No exception propagates
to the resolver: every resolve function is total by construction.  The
files variant is the one exception to uniformity: it contains exceptions
with an inline `suppress(Exception)` and returns `(None, "files")` without
logging. -/
theorem provider_error_containment (o : Oracle)
    (size country asize isbn : String) (e : PyErr) :
    (open_library_inner o size isbn = Except.error e →
      open_library_resolve o size isbn =
        (PyVal.pyTuple none "open library", [providerErrLog "Open Library" isbn e])) ∧
    (amazon_inner o country asize isbn = Except.error e →
      amazon_resolve o country asize isbn =
        (PyVal.pyTuple none "amazon", [providerErrLog "Amazon" isbn e])) ∧
    (bnf_inner o isbn = Except.error e →
      bnf_resolve o isbn =
        (PyVal.pyTuple none "bnf", [providerErrLog "BNF" isbn e])) ∧
    (google_books_inner o isbn = Except.error e →
      google_books_resolve o isbn =
        (PyVal.pyTuple none "google books", [providerErrLog "Google Books" isbn e])) ∧
    (google_api_inner o isbn = Except.error e →
      google_api_resolve o isbn =
        (PyVal.pyTuple none "google api", [providerErrLog "Google API" isbn e])) ∧
    (dnb_inner o isbn = Except.error e →
      dnb_resolve o isbn =
        (PyVal.pyTuple none "dnb", [providerErrLog "DNB" isbn e])) ∧
    (∀ baseUrl, o.filePath (clean_isbn (clean_isbn isbn)) = Except.error e →
      files_resolve o baseUrl isbn = (PyVal.pyTuple none "files", [])) := by
  have hol : pyLower "Open Library" = "open library" := by decide
  have ham : pyLower "Amazon" = "amazon" := by decide
  have hbn : pyLower "BNF" = "bnf" := by decide
  have hgb : pyLower "Google Books" = "google books" := by decide
  have hga : pyLower "Google API" = "google api" := by decide
  have hdn : pyLower "DNB" = "dnb" := by decide
  refine ⟨fun h => ?_, fun h => ?_, fun h => ?_, fun h => ?_, fun h => ?_,
    fun h => ?_, fun baseUrl h => ?_⟩
  · simp only [open_library_resolve, handle_provider_errors, h, hol]
  · simp only [amazon_resolve, handle_provider_errors, h, ham]
  · simp only [bnf_resolve, handle_provider_errors, h, hbn]
  · simp only [google_books_resolve, handle_provider_errors, h, hgb]
  · simp only [google_api_resolve, handle_provider_errors, h, hga]
  · simp only [dnb_resolve, handle_provider_errors, h, hdn]
  · simp only [files_resolve, files_get_thumbnail_url, files_get_thumbnail_path, h]

/-- Witness for C3: on the all-failing oracle, the body of each decorated
variant raises (a connection error, or for Amazon the isbnlib conversion
error, or for BNF — on its dedicated oracle — the cover fetch after a
successful SRU lookup), and each wrapped resolve returns the failure form
together with the logged message; the files variant returns its failure
form with no log. -/
theorem provider_error_containment_witness :
    open_library_inner oracleAllFail "L" "x" =
      Except.error (PyErr.requestError "connection refused") ∧
    open_library_resolve oracleAllFail "L" "x" =
      (PyVal.pyTuple none "open library",
        [providerErrLog "Open Library" "x" (PyErr.requestError "connection refused")]) ∧
    amazon_inner oracleAllFail "08" "SCLZZZZZZZ" "x" =
      Except.error (PyErr.otherError "bad isbn") ∧
    amazon_resolve oracleAllFail "08" "SCLZZZZZZZ" "x" =
      (PyVal.pyTuple none "amazon",
        [providerErrLog "Amazon" "x" (PyErr.otherError "bad isbn")]) ∧
    bnf_inner oracleBnfCoverDown "x" =
      Except.error (PyErr.requestError "connection refused") ∧
    bnf_resolve oracleBnfCoverDown "x" =
      (PyVal.pyTuple none "bnf",
        [providerErrLog "BNF" "x" (PyErr.requestError "connection refused")]) ∧
    google_books_resolve oracleAllFail "x" =
      (PyVal.pyTuple none "google books",
        [providerErrLog "Google Books" "x" (PyErr.requestError "connection refused")]) ∧
    google_api_resolve oracleAllFail "x" =
      (PyVal.pyTuple none "google api",
        [providerErrLog "Google API" "x" (PyErr.requestError "connection refused")]) ∧
    dnb_resolve oracleAllFail "x" =
      (PyVal.pyTuple none "dnb",
        [providerErrLog "DNB" "x" (PyErr.requestError "connection refused")]) ∧
    files_resolve oracleAllFail "http://localhost" "x" =
      (PyVal.pyTuple none "files", []) := by
  refine ⟨rfl, ?_, rfl, ?_, rfl, ?_, ?_, ?_, ?_, ?_⟩
  · exact (provider_error_containment oracleAllFail "L" "08" "SCLZZZZZZZ" "x"
      (PyErr.requestError "connection refused")).1 rfl
  · exact (provider_error_containment oracleAllFail "L" "08" "SCLZZZZZZZ" "x"
      (PyErr.otherError "bad isbn")).2.1 rfl
  · exact (provider_error_containment oracleBnfCoverDown "L" "08" "SCLZZZZZZZ" "x"
      (PyErr.requestError "connection refused")).2.2.1 rfl
  · exact (provider_error_containment oracleAllFail "L" "08" "SCLZZZZZZZ" "x"
      (PyErr.requestError "connection refused")).2.2.2.1 rfl
  · exact (provider_error_containment oracleAllFail "L" "08" "SCLZZZZZZZ" "x"
      (PyErr.requestError "connection refused")).2.2.2.2.1 rfl
  · exact (provider_error_containment oracleAllFail "L" "08" "SCLZZZZZZZ" "x"
      (PyErr.requestError "connection refused")).2.2.2.2.2.1 rfl
  · exact (provider_error_containment oracleAllFail "L" "08" "SCLZZZZZZZ" "x"
      (PyErr.otherError "disk failure")).2.2.2.2.2.2 "http://localhost" rfl

/-! ## C5 : cache keys

Ground work: decimal representations consist of digit characters and
`Nat.repr` is injective (recovered by folding the digits back into a
number), so the key-base string `isbn_WxH` determines the dimension pair
for a fixed identifier. -/

theorem digitChar_isDigit : ∀ m, m < 10 → (Nat.digitChar m).isDigit = true := by decide

theorem toDigitsCore_mem :
    ∀ (fuel n : Nat) (acc : List Char), (∀ d ∈ acc, d.isDigit = true) →
      ∀ c ∈ Nat.toDigitsCore 10 fuel n acc, c.isDigit = true := by
  intro fuel
  induction fuel with
  | zero => intro n acc hacc c hc; exact hacc c hc
  | succ fuel ih =>
    intro n acc hacc c hc
    simp only [Nat.toDigitsCore] at hc
    have hd : (Nat.digitChar (n % 10)).isDigit = true :=
      digitChar_isDigit _ (Nat.mod_lt _ (by norm_num))
    by_cases h0 : n / 10 = 0
    · rw [if_pos h0] at hc
      rcases List.mem_cons.mp hc with hc1 | hc1
      · rw [hc1]; exact hd
      · exact hacc c hc1
    · rw [if_neg h0] at hc
      refine ih (n / 10) _ (fun d hdm => ?_) c hc
      rcases List.mem_cons.mp hdm with hdm1 | hdm1
      · rw [hdm1]; exact hd
      · exact hacc d hdm1

/-- Every character of a decimal representation is a digit. -/
theorem repr_digits (n : Nat) : ∀ c ∈ (Nat.repr n).data, c.isDigit = true := by
  intro c hc
  have h1 : (Nat.repr n).data = Nat.toDigitsCore 10 (n + 1) n [] := rfl
  rw [h1] at hc
  exact toDigitsCore_mem (n + 1) n [] (by simp) c hc

theorem digitChar_val : ∀ m, m < 10 → (Nat.digitChar m).toNat - 48 = m := by decide

theorem toDigitsCore_foldl :
    ∀ (fuel n : Nat) (acc : List Char), n < 10 ^ fuel →
      List.foldl reprStep 0 (Nat.toDigitsCore 10 fuel n acc) =
        List.foldl reprStep n acc := by
  intro fuel
  induction fuel with
  | zero =>
    intro n acc hn
    have : n = 0 := by simpa using hn
    subst this
    rfl
  | succ fuel ih =>
    intro n acc hn
    simp only [Nat.toDigitsCore]
    have hv : reprStep 0 (Nat.digitChar (n % 10)) = n % 10 := by
      unfold reprStep
      rw [digitChar_val _ (Nat.mod_lt _ (by norm_num))]
      omega
    by_cases h0 : n / 10 = 0
    · rw [if_pos h0, List.foldl_cons, hv]
      have hne : n % 10 = n := by omega
      rw [hne]
    · rw [if_neg h0]
      have hlt : n / 10 < 10 ^ fuel := by
        rw [Nat.div_lt_iff_lt_mul (by norm_num : (0:Nat) < 10)]
        calc n < 10 ^ (fuel + 1) := hn
        _ = 10 ^ fuel * 10 := by ring
      rw [ih (n / 10) _ hlt, List.foldl_cons]
      unfold reprStep
      rw [digitChar_val _ (Nat.mod_lt _ (by norm_num))]
      have h2 : 10 * (n / 10) + n % 10 = n := Nat.div_add_mod n 10
      rw [h2]

/-- Folding the digit characters of `Nat.repr n` recovers `n`. -/
theorem reprVal_repr (n : Nat) : List.foldl reprStep 0 (Nat.repr n).data = n := by
  have h1 : (Nat.repr n).data = Nat.toDigitsCore 10 (n + 1) n [] := rfl
  rw [h1]
  have hlt : n < 10 ^ (n + 1) :=
    lt_of_lt_of_le (Nat.lt_pow_self (by norm_num) n)
      (Nat.pow_le_pow_right (by norm_num) (Nat.le_succ n))
  rw [toDigitsCore_foldl (n + 1) n [] hlt]
  rfl

theorem repr_data_inj {a b : Nat} (h : (Nat.repr a).data = (Nat.repr b).data) :
    a = b := by
  have ha := reprVal_repr a
  rw [h, reprVal_repr b] at ha
  omega

theorem repr_ne_nil (n : Nat) : (Nat.repr n).data ≠ [] := by
  intro h
  have ha := reprVal_repr n
  rw [h, List.foldl_nil] at ha
  subst ha
  exact absurd h (by decide)

/-- A list containing one occurrence of a separator absent from both
prefixes splits uniquely. -/
theorem append_cons_unique {x : Char} :
    ∀ (l1 l2 r1 r2 : List Char), x ∉ l1 → x ∉ l2 →
      l1 ++ x :: r1 = l2 ++ x :: r2 → l1 = l2 ∧ r1 = r2 := by
  intro l1
  induction l1 with
  | nil =>
    intro l2 r1 r2 h1 h2 heq
    cases l2 with
    | nil => simpa using heq
    | cons b t2 =>
      simp only [List.nil_append, List.cons_append, List.cons.injEq] at heq
      exact absurd (heq.1 ▸ List.mem_cons_self b t2) (heq.1 ▸ h2)
  | cons a t1 ih =>
    intro l2 r1 r2 h1 h2 heq
    cases l2 with
    | nil =>
      simp only [List.cons_append, List.nil_append, List.cons.injEq] at heq
      exact absurd (heq.1 ▸ List.mem_cons_self a t1) (by rw [heq.1] at h1; exact h1)
    | cons b t2 =>
      simp only [List.cons_append, List.cons.injEq] at heq
      have := ih t2 r1 r2 (fun hm => h1 (List.mem_cons_of_mem a hm))
        (fun hm => h2 (List.mem_cons_of_mem b hm)) heq.2
      exact ⟨by rw [heq.1, this.1], this.2⟩

/-- The separator `x` never occurs in a decimal representation. -/
theorem x_not_mem_repr (n : Nat) : 'x' ∉ (Nat.repr n).data := fun hm =>
  absurd (repr_digits n 'x' hm) (by decide)

/-- Key base of a request with both dimensions positive. -/
theorem cacheKeyBase_pos (isbn : String) (w h : Nat) (hw : w ≠ 0) :
    cacheKeyBase isbn (some w) (some h) =
      isbn ++ "_" ++ Nat.repr w ++ "x" ++ Nat.repr h := by
  simp [cacheKeyBase, truthyDim, orZero, hw]

/-- Counterexample for C5: the pairs (width=0, height=5) and
(width=unspecified, height=5) are distinct request shapes, yet `width or 0`
maps both to the same key base and hence to the same MD5 cache key —
distinct (width, height) pairs do not always yield distinct keys. -/
theorem cache_key_zero_width_collision :
    ((some 0 : Option Nat), (some 5 : Option Nat)) ≠ ((none : Option Nat), (some 5 : Option Nat)) ∧
    cacheKeyBase "9780134685991" (some 0) (some 5) =
      cacheKeyBase "9780134685991" none (some 5) ∧
    generate_cache_key "9780134685991" "img" (some 0) (some 5) =
      generate_cache_key "9780134685991" "img" none (some 5) := by
  refine ⟨by decide, by decide, ?_⟩
  simp only [generate_cache_key]
  rw [show cacheKeyBase "9780134685991" (some 0) (some 5) =
    cacheKeyBase "9780134685991" none (some 5) from by decide]

/-- C5 (amended): every image-cache key is the constant prefix plus the MD5
hash of a key base built deterministically from (identifier, width,
height); for a fixed identifier, any sized request (at least one truthy
dimension) has a key base distinct from the unsized key base, and distinct
pairs of positive dimensions yield distinct key bases (hence distinct keys
except on an MD5 collision); a width or height of 0 is treated as
unspecified, so those request shapes alias; and the URL-lookup cache key is
the identifier with a constant prefix, unhashed. -/
theorem cache_key_spec (isbn p : String) (w1 h1 w2 h2 : Nat) (wo ho : Option Nat) :
    (generate_cache_key isbn p wo ho =
      "rero_thumbnail_" ++ p ++ "_" ++ md5hex (cacheKeyBase isbn wo ho)) ∧
    ((truthyDim wo || truthyDim ho) = true →
      cacheKeyBase isbn wo ho ≠ cacheKeyBase isbn none none) ∧
    (w1 ≠ 0 → h1 ≠ 0 → w2 ≠ 0 → h2 ≠ 0 → (w1, h1) ≠ (w2, h2) →
      cacheKeyBase isbn (some w1) (some h1) ≠ cacheKeyBase isbn (some w2) (some h2)) ∧
    (generate_cache_key isbn p (some 0) ho = generate_cache_key isbn p none ho) ∧
    (urlCacheKey isbn = "rero_thumbnails_" ++ isbn) := by
  refine ⟨rfl, fun htr heq => ?_, fun hw1 hh1 hw2 hh2 hne heq => ?_,
    by simp [generate_cache_key, cacheKeyBase, truthyDim, orZero], rfl⟩
  · have hbase : cacheKeyBase isbn wo ho =
        isbn ++ "_" ++ Nat.repr (orZero wo) ++ "x" ++ Nat.repr (orZero ho) := by
      simp only [cacheKeyBase, htr, if_pos]
    have hun : cacheKeyBase isbn none none = isbn := by
      simp [cacheKeyBase, truthyDim]
    rw [hbase, hun] at heq
    have hd := congrArg (fun s => s.data.length) heq
    simp only [String.data_append, List.length_append] at hd
    have p1 : 0 < (Nat.repr (orZero wo)).data.length :=
      List.length_pos.mpr (repr_ne_nil _)
    simp only [List.length_cons, List.length_nil] at hd
    omega
  · rw [cacheKeyBase_pos isbn w1 h1 hw1, cacheKeyBase_pos isbn w2 h2 hw2] at heq
    have hd := congrArg String.data heq
    simp only [String.data_append] at hd
    simp only [List.append_assoc, List.singleton_append] at hd
    have hd2 := List.append_cancel_left hd
    injection hd2 with _ hd3
    obtain ⟨hww, hhh⟩ := append_cons_unique _ _ _ _
      (x_not_mem_repr w1) (x_not_mem_repr w2) hd3
    exact hne (by rw [repr_data_inj hww, repr_data_inj hhh])

/-- Witness for C5: for the ISBN 9780134685991, the sized request 200 by
unspecified has a key base distinct from the unsized one, and the distinct
positive pairs (1, 2) and (2, 1) produce the distinct key bases
"9780134685991_1x2" and "9780134685991_2x1". -/
theorem cache_key_spec_witness :
    (truthyDim (some 200) || truthyDim (none : Option Nat)) = true ∧
    cacheKeyBase "9780134685991" (some 200) none ≠
      cacheKeyBase "9780134685991" none none ∧
    ((1, 2) : Nat × Nat) ≠ (2, 1) ∧
    cacheKeyBase "9780134685991" (some 1) (some 2) ≠
      cacheKeyBase "9780134685991" (some 2) (some 1) ∧
    cacheKeyBase "9780134685991" (some 1) (some 2) = "9780134685991_1x2" ∧
    cacheKeyBase "9780134685991" (some 2) (some 1) = "9780134685991_2x1" :=
  ⟨by decide,
    (cache_key_spec "9780134685991" "img" 1 2 2 1 (some 200) none).2.1 (by decide),
    by decide,
    (cache_key_spec "9780134685991" "img" 1 2 2 1 (some 200) none).2.2.1
      (by decide) (by decide) (by decide) (by decide) (by decide),
    by decide, by decide⟩

end ReroThumbnails
